import Mathlib

/-!
Verification of the o3de-atomtest repository: a collection of editor-automation
scripts (Hydra scripts) that drive a running O3DE editor through its Python
scripting buses, wait for polled conditions, emit pass/fail log lines, capture
screenshots, and validate material slot labels.

The embedding models the host editor as an oracle (environment functions
supplying the outcomes of host queries, file copies and notification arrivals)
and each script as a function from that oracle to the trace of host calls,
log lines and screenshot artifacts it produces.  Pure helper functions of the
repository (`validate_material_slot_labels`, `copy_file`,
`copy_file_and_wait_for_on_model_ready`) are translated directly.

Code of the repository that is referenced but not present under src/
(`TestHelper.wait_for_condition`, `ScreenshotHelper`, and the external
harness checker of `hydra_test_utils.launch_and_validate_results`) is
modelled from the specification; those definitions carry a doc comment
starting with `Modelled from the spec:`.
-/

/-- One observable event of a script run: a host call, a log line, a poll
resolution, a file-copy attempt or a screenshot artifact being written. -/
inductive Ev where
  | createEntity (h : Nat)
  | deleteEntity (h : Nat)
  | entityOp (op : String) (h : Nat)
  | componentOp (op : String)
  | hostOp (op : String)
  | pollResolve (ok : Bool)
  | logLine (s : String)
  | copyAttempt (src dst : String)
  | screenshot (file : String)
deriving DecidableEq

/-- Python `str(bool)` as it appears interpolated into the f-string log lines. -/
def boolText (b : Bool) : String :=
  if b then "True" else "False"

/-- Does the event pass the entity handle `h` to the host?  (`createEntity`
returns the handle rather than taking it, so it does not count.) -/
def usesEntity (e : Ev) (h : Nat) : Bool :=
  match e with
  | Ev.entityOp _ h2 => h2 == h
  | Ev.deleteEntity h2 => h2 == h
  | _ => false

/-- Events that mutate the host or produce an artifact: everything except
log lines and condition-poll resolutions. -/
def isAction (e : Ev) : Bool :=
  match e with
  | Ev.logLine _ => false
  | Ev.pollResolve _ => false
  | _ => true

/-- The host actions of a trace, with log lines and poll resolutions erased. -/
def actionsOf (tr : List Ev) : List Ev :=
  tr.filter isAction

/-- The screenshot artifacts a trace produces, in order. -/
def shotsOf : List Ev → List String
  | [] => []
  | Ev.screenshot f :: rest => f :: shotsOf rest
  | _ :: rest => shotsOf rest

/-- How many times a trace writes the screenshot artifact named `file`. -/
def countFile (file : String) : List Ev → Nat
  | [] => 0
  | Ev.screenshot f :: rest => (if f = file then 1 else 0) + countFile file rest
  | _ :: rest => countFile file rest

/-- How many condition polls a trace resolves. -/
def countPolls : List Ev → Nat
  | [] => 0
  | Ev.pollResolve _ :: rest => 1 + countPolls rest
  | _ :: rest => countPolls rest

/-- Modelled from the spec: `TestHelper.wait_for_condition` of
`Automated/atom_utils/automated_test_utils.py` (referenced by every script
but not under src/).  It busy-polls a predicate once per idle tick, starting
at tick `t`, until the predicate returns true or the budget of `timeout`
polls is exhausted, then proceeds; it returns whether the condition was met
together with the tick at which polling resolved. -/
def pollCondition (cond : Nat → Bool) (timeout t : Nat) : Bool × Nat :=
  match timeout with
  | 0 => (false, t)
  | Nat.succ n => if cond t then (true, t) else pollCondition cond n (t + 1)

/-- Number of polls `pollCondition` actually performs before resolving. -/
def pollsUsed (cond : Nat → Bool) (timeout t : Nat) : Nat :=
  match timeout with
  | 0 => 0
  | Nat.succ n => if cond t then 1 else 1 + pollsUsed cond n (t + 1)

/-- State threaded through a scenario: the current idle tick and the log
transcript, each entry stamped with the tick at which it was emitted. -/
structure ScriptState where
  time : Nat
  log : List (Nat × String)

/-- Modelled from the spec: one step descriptor of the §4.1 scenario runner —
a host mutation (consuming `actionTicks` idle ticks), a polled condition with
a timeout, and a log template completed with the polled truth value. -/
structure Step where
  actionTicks : Nat
  condition : Nat → Bool
  timeout : Nat
  logTemplate : String

/-- The log line a step emits: its template followed by the Python rendering
of the polled condition value, mirroring the scripts' f-string pattern. -/
def stepLogLine (s : Step) (ok : Bool) : String :=
  s.logTemplate ++ boolText ok

/-- Modelled from the spec: the §4.1 scenario runner executes a step by
performing its host mutation, polling its condition until satisfied or the
timeout elapses, and then emitting the step's log line completed with the
polled truth value; a timed-out poll is logged and is not fatal. -/
def runStep (st : ScriptState) (s : Step) : ScriptState :=
  let r := pollCondition s.condition s.timeout (st.time + s.actionTicks)
  { time := r.2, log := st.log ++ [(r.2, stepLogLine s r.1)] }

/-- Modelled from the spec: a scenario executes its steps strictly
sequentially, each step starting from the state in which the previous
step's poll resolved. -/
def runScript (st : ScriptState) (steps : List Step) : ScriptState :=
  steps.foldl runStep st

/-!  ModelHotReloading_test_case.py  -/

/-- Destination path of every hot-reload copy
(`'Objects/ModelHotReload/hotreload.fbx'`). -/
def hotReloadDst : String :=
  "Objects/ModelHotReload/hotreload.fbx"

/-- `copy_file(srcPath, dstPath)`: ensures the destination directory exists
(`os.makedirs`, outside the try block), attempts `shutil.copyfile` — whose
outcome the host filesystem decides, modelled by `copyfileRes` — and returns
True on success; a raised exception is caught, an "ERROR: ..." line is
logged, and False is returned.  Output: (return value, log lines, events). -/
def copy_file (srcPath dstPath : String) (dstDirExists : Bool)
    (copyfileRes : Except String Unit) : Bool × List String × List Ev :=
  let dirEvents : List Ev := if dstDirExists then [] else [Ev.hostOp "makedirs"]
  match copyfileRes with
  | Except.ok _ => (true, [], dirEvents ++ [Ev.copyAttempt srcPath dstPath])
  | Except.error e =>
      (false, ["ERROR: " ++ e], dirEvents ++ [Ev.copyAttempt srcPath dstPath])

/-- The mutable helper object of `ModelHotReloading_test_case.py`; its only
state is the `isModelReady` flag set by the `OnModelReady` notification. -/
structure ModelReloadHelper where
  isModelReady : Bool

/-- `ModelReloadHelper.copy_file_and_wait_for_on_model_ready`: resets
`isModelReady` to False, connects the `OnModelReady` handler (arrivals of
this invocation's notifications are the oracle `readyAt`), copies the source
file onto `hotReloadDst`, and, only if the copy succeeded, polls the
model-ready predicate with a 20 second budget.  Output: (return value,
resolution tick, events). -/
def copy_file_and_wait_for_on_model_ready (helper : ModelReloadHelper)
    (sourceFile : String) (dstDirExists : Bool) (copyfileRes : Except String Unit)
    (readyAt : Nat → Bool) (t : Nat) : Bool × Nat × List Ev :=
  let helper : ModelReloadHelper := { helper with isModelReady := false }
  let c := copy_file sourceFile hotReloadDst dstDirExists copyfileRes
  if c.1 then
    let r := pollCondition (fun u => helper.isModelReady || readyAt u) 20 t
    (r.1, r.2, c.2.2 ++ c.2.1.map Ev.logLine ++ [Ev.pollResolve r.1])
  else
    (false, t, c.2.2 ++ c.2.1.map Ev.logLine)

/-- One material slot assignment as the host reports it: the
`MaterialAssignmentId` (lod index plus whether `IsDefault()` holds) together
with the slot label `GetMaterialSlotLabel` returns for it. -/
structure Assignment where
  lodIndex : Nat
  isDefault : Bool
  slotLabel : String
deriving DecidableEq

/-- Association-list lookup with Python-dict semantics (first matching key). -/
def alGet {κ α : Type} [DecidableEq κ] (m : List (κ × α)) (k : κ) : Option α :=
  match m with
  | [] => none
  | p :: rest => if p.1 = k then some p.2 else alGet rest k

/-- Association-list update with Python-dict semantics: overwrite the
existing key or append a new one. -/
def alSet {κ α : Type} [DecidableEq κ] (m : List (κ × α)) (k : κ) (v : α) :
    List (κ × α) :=
  match m with
  | [] => [(k, v)]
  | p :: rest => if p.1 = k then (k, v) :: rest else p :: alSet rest k v

/-- The `foundLabels` bookkeeping structure of
`validate_material_slot_labels`: for each expected lod, for each expected
slot label, whether it has been found. -/
def FoundMap : Type :=
  List (Nat × List (String × Bool))

/-- Initial `foundLabels`: every expected label of every expected lod is
marked not-found.  Inner dictionaries are built by repeated dict assignment,
so duplicate labels collapse into one entry. -/
def initFound (materialLabelDict : List (Nat × List String)) : FoundMap :=
  materialLabelDict.map
    (fun p => (p.1, p.2.foldl (fun inner label => alSet inner label false) []))

/-- Result of the first loop of `validate_material_slot_labels`: either an
early `return False` with its diagnostic log lines, or the final
`foundLabels` together with the last values bound to the loop variables
`assignmentId` and `slotLabel` (needed because the final diagnostic log
reads them after the loop). -/
inductive ScanOut where
  | earlyFalse (logs : List String)
  | done (found : FoundMap) (lastA : Option Assignment) (lastL : Option String)

/-- The first loop of `validate_material_slot_labels`: walk the host's
material assignment map; ignore default assignments; `return False` on an
unexpected lod or slot label; otherwise mark the (lod, label) pair found. -/
def scanAssignments (found : FoundMap) (lastA : Option Assignment)
    (lastL : Option String) : List Assignment → ScanOut
  | [] => ScanOut.done found lastA lastL
  | a :: rest =>
    if a.isDefault then scanAssignments found (some a) lastL rest
    else
      match alGet found a.lodIndex with
      | none =>
          ScanOut.earlyFalse
            ["There is an unexpected lod in the material map",
             "  lod: " ++ toString a.lodIndex]
      | some inner =>
          match alGet inner a.slotLabel with
          | none =>
              ScanOut.earlyFalse
                ["There is an unexpected material slot in the lod",
                 "  lod: " ++ toString a.lodIndex ++ " slot label: " ++ a.slotLabel]
          | some _ =>
              scanAssignments (alSet found a.lodIndex (alSet inner a.slotLabel true))
                (some a) (some a.slotLabel) rest

/-- Second loop of `validate_material_slot_labels`: every expected
(lod, label) combination must have been marked found. -/
def allFound (found : FoundMap) : Bool :=
  found.all (fun p => p.2.all (fun q => q.2))

/-- `validate_material_slot_labels(entityId, materialLabelDict)`: the host's
assignment map for the entity is the oracle `materialAssignmentMap`.  The
result is `(some b, logs)` when the function returns `b` after printing
`logs`, and `(none, logs)` when it raises: the final diagnostic interpolates
the loop variables `assignmentId` and `slotLabel`, which are unbound
(NameError) when no non-default assignment reached the labelled branch —
the first diagnostic line has already been printed at that point. -/
def validate_material_slot_labels (materialAssignmentMap : List Assignment)
    (materialLabelDict : List (Nat × List String)) : Option Bool × List String :=
  let foundLabels := initFound materialLabelDict
  match scanAssignments foundLabels none none materialAssignmentMap with
  | ScanOut.earlyFalse logs => (some false, logs)
  | ScanOut.done found lastA lastL =>
    if allFound found then (some true, [])
    else
      match lastA, lastL with
      | some a, some l =>
          (some false,
           ["There was an expected material slot/lod combination that was not found",
            "  lod: " ++ toString a.lodIndex ++ " slot label: " ++ l])
      | _, _ =>
          (none,
           ["There was an expected material slot/lod combination that was not found"])

/-- `modelMaterialOverrideLod = 18446744073709551615` of the script. -/
def modelMaterialOverrideLod : Nat :=
  18446744073709551615

/-- First expected label dictionary of `run()` (multi-material cube model). -/
def materialLabelDict1 : List (Nat × List String) :=
  [(modelMaterialOverrideLod,
    ["StingrayPBS1", "Red_Xaxis", "Green_Yaxis", "Blue_Zaxis", "With_Texture"]),
   (0, ["StingrayPBS1", "Red_Xaxis", "Green_Yaxis", "Blue_Zaxis", "With_Texture"])]

/-- Second expected label dictionary of `run()` (five-lod sphere model). -/
def materialLabelDict2 : List (Nat × List String) :=
  [(modelMaterialOverrideLod,
    ["lambert0", "lambert3", "lambert4", "lambert5", "lambert6"]),
   (0, ["lambert0"]), (1, ["lambert3"]), (2, ["lambert4"]),
   (3, ["lambert5"]), (4, ["lambert6"])]

/-- Third expected label dictionary of `run()` (vertex-color model). -/
def materialLabelDict3 : List (Nat × List String) :=
  [(modelMaterialOverrideLod, ["Material"]), (0, ["Material"])]

/-- Host oracle for the hot-reload sequence of `ModelHotReloading.run()`:
per copy invocation, whether the destination directory already exists and
the outcome of `shutil.copyfile`; per invocation, when the `OnModelReady`
notification has arrived; per `validate_material_slot_labels` call, the
material assignment map the host reports. -/
structure HotReloadEnv where
  dirExists : Nat → Bool
  copyRes : Nat → Except String Unit
  readyAt : Nat → Nat → Bool
  matMap : Nat → List Assignment

/-- The `k`-th `copy_file_and_wait_for_on_model_ready` invocation of
`run()`, under the oracle. -/
def hotBlock (env : HotReloadEnv) (k : Nat) (src : String) (t : Nat) :
    Bool × Nat × List Ev :=
  copy_file_and_wait_for_on_model_ready ⟨false⟩ src (env.dirExists k)
    (env.copyRes k) (env.readyAt k) t

/-- The event trace of the hot-reload portion of `ModelHotReloading.run()`
(the five copy-and-wait blocks with their failure logs, the two screenshot
captures, the three slot-label validations, and the final editor close).
A `validate_material_slot_labels` call that raises aborts the script, so
the trace is truncated at that point. -/
def modelHotReload_run (env : HotReloadEnv) (t0 : Nat) : List Ev :=
  let b1 := hotBlock env 0 "Objects/ModelHotReload/vertexcolor.fbx" t0
  let e1 := b1.2.2
    ++ (if b1.1 then []
        else [Ev.logLine "OnModelReady never happened - vertexcolor.fbx"])
    ++ [Ev.screenshot "screenshot_atom_ModelHotReload_VertexColor.ppm"]
  let b2 := hotBlock env 1 "Objects/ModelHotReload/novertexcolor.fbx" b1.2.1
  let e2 := e1 ++ b2.2.2
    ++ (if b2.1 then []
        else [Ev.logLine "OnModelReady never happened - novertexcolor.fbx"])
    ++ [Ev.screenshot "screenshot_atom_ModelHotReload_NoVertexColor.ppm"]
  let b3 := hotBlock env 2 "Multi-mat_fbx/multi-mat_mesh-groups_1m_cubes.fbx" b2.2.1
  let e3 := e2 ++ b3.2.2
    ++ (if b3.1 then []
        else [Ev.logLine "OnModelReady never happened - multi-mat_mesh-groups_1m_cubes.fbx"])
  let v1 := validate_material_slot_labels (env.matMap 0) materialLabelDict1
  let e4 := e3 ++ v1.2.map Ev.logLine
  if v1.1.isNone then e4 else
  let b4 := hotBlock env 3 "Objects/ModelHotReload/sphere_5lods.fbx" b3.2.1
  let e5 := e4 ++ b4.2.2
    ++ (if b4.1 then []
        else [Ev.logLine "OnModelReady never happened - sphere_5lods.fbx"])
  let v2 := validate_material_slot_labels (env.matMap 1) materialLabelDict2
  let e6 := e5 ++ v2.2.map Ev.logLine
  if v2.1.isNone then e6 else
  let b5 := hotBlock env 4 "Objects/ModelHotReload/vertexcolor.fbx" b4.2.1
  let e7 := e6 ++ b5.2.2
    ++ (if b5.1 then []
        else [Ev.logLine "OnModelReady never happened - vertexcolor.fbx"])
  let v3 := validate_material_slot_labels (env.matMap 2) materialLabelDict3
  let e8 := e7 ++ v3.2.map Ev.logLine
  if v3.1.isNone then e8 else e8 ++ [Ev.hostOp "close_editor"]

/-!  External harness log checker (AllComponentsBasicTests_test.py)  -/

/-- Is `needle` a contiguous sublist of the second argument? -/
def hasSubList (needle : List Char) : List Char → Bool
  | [] => needle.isEmpty
  | c :: rest => List.isPrefixOf needle (c :: rest) || hasSubList needle rest

/-- Does the log line contain an occurrence of one of the configured
literal unexpected substrings? -/
def lineHasUnexpected (unexpected : List String) (line : String) : Bool :=
  unexpected.any (fun u => hasSubList u.data line.data)

/-- The `unexpected_lines` configured by
`TestAllComponentsBasicTests.test_AllComponentsTest`. -/
def unexpected_lines : List String :=
  ["Assert", "Traceback (most recent call last):"]

/-- Verdict of the harness-side log scan. -/
inductive CheckOutcome where
  | passed
  | failedAt (i : Nat) (line : String)
deriving DecidableEq

/-- Modelled from the spec: the checker that
`hydra_test_utils.launch_and_validate_results` (not under src/) runs over
the captured log transcript when `halt_on_unexpected=True`: it scans the
transcript in order and halts at the first line containing one of the
configured unexpected substrings, reporting the test failed at that line. -/
def scanTranscript (unexpected : List String) : List String → CheckOutcome
  | [] => CheckOutcome.passed
  | l :: rest =>
    if lineHasUnexpected unexpected l then CheckOutcome.failedAt 0 l
    else
      match scanTranscript unexpected rest with
      | CheckOutcome.passed => CheckOutcome.passed
      | CheckOutcome.failedAt i s => CheckOutcome.failedAt (i + 1) s

/-!  AllComponentsIndepthTests_test_case.py

The straight-line scripts are embedded as the traces they produce.  Host
query results that only appear interpolated into log lines are supplied by
the oracles `q` (booleans) and `s` (strings); `w` supplies the outcomes of
the `wait_for_condition` polls; `hid` is the entity handle the host returns
from `CreateNewEntity`. -/

/-- `TestAllComponentsIndepthTests.create_entity_undo_redo_component_addition`:
create the entity with its component, log the addition, undo and verify,
redo and verify. -/
def create_entity_undo_redo_component_addition (entity_name component : String)
    (hid : Nat) (q w : Nat → Bool) : List Ev :=
  [Ev.createEntity hid,
   Ev.entityOp ("add_component " ++ component) hid,
   Ev.entityOp "has_components" hid,
   Ev.logLine (entity_name ++ "_test: Component added to the entity: " ++ boolText (q 0)),
   Ev.hostOp "undo",
   Ev.pollResolve (w 0),
   Ev.entityOp "has_components" hid,
   Ev.logLine (entity_name ++ "_test: Component removed after UNDO: " ++ boolText (q 1)),
   Ev.hostOp "redo",
   Ev.pollResolve (w 1),
   Ev.entityOp "has_components" hid,
   Ev.logLine (entity_name ++ "_test: Component added after REDO: " ++ boolText (q 2))]

/-- `TestAllComponentsIndepthTests.verify_enter_exit_game_mode`: enter game
mode, wait and log, exit game mode, wait and log. -/
def verify_enter_exit_game_mode (entity_name : String) (q w : Nat → Bool) :
    List Ev :=
  [Ev.hostOp "enter_game_mode",
   Ev.pollResolve (w 0),
   Ev.logLine (entity_name ++ "_test: Entered game mode: " ++ boolText (q 0)),
   Ev.hostOp "exit_game_mode",
   Ev.pollResolve (w 1),
   Ev.logLine (entity_name ++ "_test: Exit game mode: " ++ boolText (q 1))]

/-- `TestAllComponentsIndepthTests.verify_required_component_property_value`:
read the property and log its value against the expected one. -/
def verify_required_component_property_value (entity_name valueText expectedText :
    String) : List Ev :=
  [Ev.componentOp "GetComponentProperty",
   Ev.logLine (entity_name ++ "_test: Property value is " ++ valueText
     ++ " which matches " ++ expectedText)]

/-- `TestAllComponentsIndepthTests.take_screenshot_game_mode`: enter game
mode, idle, wait for game mode, capture `<screenshot_name>.ppm` (the
capture itself is `ScreenshotHelper.capture_screenshot_blocking`, not under
src/, modelled from the spec as a blocking capture to the named file), exit
game mode and wait. -/
def take_screenshot_game_mode (screenshot_name : String) (w : Nat → Bool) :
    List Ev :=
  [Ev.hostOp "enter_game_mode",
   Ev.hostOp "idle_wait",
   Ev.pollResolve (w 0),
   Ev.screenshot (screenshot_name ++ ".ppm"),
   Ev.hostOp "exit_game_mode",
   Ev.pollResolve (w 1)]

/-- `TestAllComponentsIndepthTests.verify_deletion_undo_redo`: delete the
entity, verify by name, undo and verify, redo and verify.  After the
deletion call the entity is referenced only through its name
(`find_entity_by_name`), never through the handle. -/
def verify_deletion_undo_redo (entity_name : String) (hid : Nat)
    (q w : Nat → Bool) : List Ev :=
  [Ev.deleteEntity hid,
   Ev.hostOp "find_entity_by_name",
   Ev.pollResolve (w 0),
   Ev.logLine (entity_name ++ "_test: Entity deleted: " ++ boolText (q 0)),
   Ev.hostOp "undo",
   Ev.hostOp "find_entity_by_name",
   Ev.pollResolve (w 1),
   Ev.logLine (entity_name ++ "_test: UNDO entity deletion works: " ++ boolText (q 1)),
   Ev.hostOp "redo",
   Ev.hostOp "idle_wait",
   Ev.hostOp "find_entity_by_name",
   Ev.pollResolve (w 2),
   Ev.logLine (entity_name ++ "_test: REDO entity deletion works: " ++ boolText (q 2))]

/-- `TestAllComponentsIndepthTests.area_light_component_test`: the full
area-light scenario — entity creation with undo/redo verification, light
type configuration and verification, five game-mode screenshots, and the
final deletion of the entity. -/
def area_light_component_test (hid : Nat) (q w : Nat → Bool) (s : Nat → String) :
    List Ev :=
  create_entity_undo_redo_component_addition "area_light" "Light" hid q w
  ++ [Ev.entityOp "attach_component Light" hid,
      Ev.componentOp "SetComponentProperty Light type"]
  ++ verify_enter_exit_game_mode "area_light" (fun i => q (3 + i)) (fun i => w (2 + i))
  ++ verify_required_component_property_value "area_light" (s 0) (s 1)
  ++ [Ev.componentOp "get_set_test Color"]
  ++ take_screenshot_game_mode "AreaLight_1" (fun i => w (4 + i))
  ++ [Ev.componentOp "get_set_test Attenuation Radius Mode",
      Ev.componentOp "get_set_test Intensity"]
  ++ take_screenshot_game_mode "AreaLight_2" (fun i => w (6 + i))
  ++ [Ev.componentOp "get_set_test Intensity"]
  ++ take_screenshot_game_mode "AreaLight_3" (fun i => w (8 + i))
  ++ [Ev.componentOp "SetComponentProperty Light type"]
  ++ verify_required_component_property_value "area_light" (s 2) (s 3)
  ++ [Ev.entityOp "SetLocalRotation" hid]
  ++ take_screenshot_game_mode "AreaLight_4" (fun i => w (10 + i))
  ++ [Ev.componentOp "SetComponentProperty Light type"]
  ++ verify_required_component_property_value "area_light" (s 4) (s 5)
  ++ take_screenshot_game_mode "AreaLight_5" (fun i => w (12 + i))
  ++ [Ev.deleteEntity hid]

/-- `TestAllComponentsIndepthTests.spot_light_component_test`: the
spot-light scenario — entity creation with undo/redo verification, light
configuration, disabling of the directional light and skylight components,
ground-plane material change, and four game-mode screenshots.  The entity
is never deleted (the deletion steps of the docstring are not in the code). -/
def spot_light_component_test (hid : Nat) (q w : Nat → Bool) (s : Nat → String) :
    List Ev :=
  create_entity_undo_redo_component_addition "spot_light" "Light" hid q w
  ++ [Ev.entityOp "SetLocalRotation" hid,
      Ev.entityOp "attach_component Light" hid,
      Ev.componentOp "SetComponentProperty Light type"]
  ++ verify_enter_exit_game_mode "spot_light" (fun i => q (3 + i)) (fun i => w (2 + i))
  ++ verify_required_component_property_value "spot_light" (s 0) (s 1)
  ++ [Ev.hostOp "find_entity_by_name",
      Ev.hostOp "find_entity_by_name",
      Ev.componentOp "disable_component",
      Ev.componentOp "disable_component",
      Ev.componentOp "disable_component"]
  ++ take_screenshot_game_mode "SpotLight_1" (fun i => w (4 + i))
  ++ [Ev.hostOp "get_asset_by_path",
      Ev.hostOp "find_entity_by_name",
      Ev.componentOp "get_set_test Default Material"]
  ++ take_screenshot_game_mode "SpotLight_2" (fun i => w (6 + i))
  ++ [Ev.componentOp "get_set_test Intensity"]
  ++ take_screenshot_game_mode "SpotLight_3" (fun i => w (8 + i))
  ++ [Ev.componentOp "get_set_test Color"]
  ++ take_screenshot_game_mode "SpotLight_4" (fun i => w (10 + i))

/-- `TestAllComponentsIndepthTests.grid_component_test`: fetch the Grid
component of the `default_level` entity (handle `hidL`, obtained by
search), change six grid properties each followed by a game-mode
screenshot, then restore the six default values. -/
def grid_component_test (hidL : Nat) (w : Nat → Bool) : List Ev :=
  [Ev.hostOp "SearchEntities",
   Ev.hostOp "FindComponentTypeIdsByEntityType",
   Ev.entityOp "GetComponentOfType" hidL,
   Ev.componentOp "set_component_property Grid Size"]
  ++ take_screenshot_game_mode "Grid_1" (fun i => w (0 + i))
  ++ [Ev.componentOp "set_component_property Axis Color"]
  ++ take_screenshot_game_mode "Grid_2" (fun i => w (2 + i))
  ++ [Ev.componentOp "set_component_property Primary Grid Spacing"]
  ++ take_screenshot_game_mode "Grid_3" (fun i => w (4 + i))
  ++ [Ev.componentOp "set_component_property Primary Color"]
  ++ take_screenshot_game_mode "Grid_4" (fun i => w (6 + i))
  ++ [Ev.componentOp "set_component_property Secondary Grid Spacing"]
  ++ take_screenshot_game_mode "Grid_5" (fun i => w (8 + i))
  ++ [Ev.componentOp "set_component_property Secondary Color"]
  ++ take_screenshot_game_mode "Grid_6" (fun i => w (10 + i))
  ++ [Ev.componentOp "set_component_property Grid Size",
      Ev.componentOp "set_component_property Axis Color",
      Ev.componentOp "set_component_property Primary Grid Spacing",
      Ev.componentOp "set_component_property Primary Color",
      Ev.componentOp "set_component_property Secondary Grid Spacing",
      Ev.componentOp "set_component_property Secondary Color"]

/-- `run()` of AllComponentsIndepthTests_test_case.py: level setup, then the
area-light test, then the spot-light test, then the grid test, then the
completion log line. -/
def allComponentsIndepth_run (hidA hidS hidL : Nat) (qa wa qs ws wg : Nat → Bool)
    (sa ss : Nat → String) : List Ev :=
  [Ev.hostOp "init_idle",
   Ev.hostOp "create_basic_atom_level",
   Ev.hostOp "level_load_save",
   Ev.hostOp "initial_viewport_setup"]
  ++ area_light_component_test hidA qa wa sa
  ++ spot_light_component_test hidS qs ws ss
  ++ grid_component_test hidL wg
  ++ [Ev.logLine "Component tests completed"]

/-!  Properties used by the claims  -/

/-- Every host call of the trace that passes the entity handle `h` lies
inside the handle's lifetime: strictly after the `createEntity` call that
produced it and no later than the `deleteEntity` call that disposes of it. -/
def handleScoped (tr : List Ev) (h : Nat) : Prop :=
  ∀ k, (hk : k < tr.length) → usesEntity (tr.get ⟨k, hk⟩) h = true →
    ((∃ j, ∃ hj : j < tr.length, j < k ∧ tr.get ⟨j, hj⟩ = Ev.createEntity h) ∧
     (∃ j, ∃ hj : j < tr.length, k ≤ j ∧ tr.get ⟨j, hj⟩ = Ev.deleteEntity h))

/-- After a `deleteEntity` call for the handle `h`, no later event of the
trace passes `h` to the host again. -/
def noUseAfterDelete (tr : List Ev) (h : Nat) : Prop :=
  ∀ i j, (hi : i < tr.length) → (hj : j < tr.length) →
    tr.get ⟨i, hi⟩ = Ev.deleteEntity h → i < j →
    usesEntity (tr.get ⟨j, hj⟩) h = false

/-- The host actions (copies, makedirs, screenshots, editor close) of
`modelHotReload_run`, as a function of the only oracle components that can
influence them: the filesystem's directory state and the material maps the
validations read.  Copy outcomes and notification timing change log lines
and poll counts only. -/
def hotReloadActions (dirExists : Nat → Bool) (matMap : Nat → List Assignment) :
    List Ev :=
  let d : Nat → List Ev := fun k =>
    if dirExists k then [] else [Ev.hostOp "makedirs"]
  let v1 := (validate_material_slot_labels (matMap 0) materialLabelDict1).1
  let e4 := d 0
    ++ [Ev.copyAttempt "Objects/ModelHotReload/vertexcolor.fbx" hotReloadDst,
        Ev.screenshot "screenshot_atom_ModelHotReload_VertexColor.ppm"]
    ++ d 1
    ++ [Ev.copyAttempt "Objects/ModelHotReload/novertexcolor.fbx" hotReloadDst,
        Ev.screenshot "screenshot_atom_ModelHotReload_NoVertexColor.ppm"]
    ++ d 2
    ++ [Ev.copyAttempt "Multi-mat_fbx/multi-mat_mesh-groups_1m_cubes.fbx" hotReloadDst]
  if v1.isNone then e4 else
  let v2 := (validate_material_slot_labels (matMap 1) materialLabelDict2).1
  let e6 := e4 ++ d 3 ++ [Ev.copyAttempt "Objects/ModelHotReload/sphere_5lods.fbx" hotReloadDst]
  if v2.isNone then e6 else
  let v3 := (validate_material_slot_labels (matMap 2) materialLabelDict3).1
  let e8 := e6 ++ d 4 ++ [Ev.copyAttempt "Objects/ModelHotReload/vertexcolor.fbx" hotReloadDst]
  if v3.isNone then e8 else e8 ++ [Ev.hostOp "close_editor"]

/-- A fixed seed log transcript containing the literal unexpected string
`"Traceback (most recent call last):"` on its second line. -/
def seedTranscript : List String :=
  ["Entity successfully created.",
   "Traceback (most recent call last): boom",
   "Component tests completed"]

/-- A hot-reload oracle whose first copy fails with an exception; directory
present, notifications immediate, host maps empty. -/
def hotEnvCopyFails : HotReloadEnv :=
  { dirExists := fun _ => true
    copyRes := fun _ => Except.error "No such file or directory"
    readyAt := fun _ _ => true
    matMap := fun _ => [] }

/-- A hot-reload oracle whose copies all succeed; directory present,
notifications immediate, host maps empty. -/
def hotEnvCopyOk : HotReloadEnv :=
  { dirExists := fun _ => true
    copyRes := fun _ => Except.ok ()
    readyAt := fun _ _ => true
    matMap := fun _ => [] }

/-!  Lemmas about the poll primitive  -/

/-- A condition that stays false for the whole budget makes the poll resolve
false exactly when the timeout elapses. -/
theorem pollCondition_never (cond : Nat → Bool) :
    ∀ timeout t, (∀ u, u < timeout → cond (t + u) = false) →
      pollCondition cond timeout t = (false, t + timeout) := by
  intro timeout
  induction timeout with
  | zero => intro t _; simp [pollCondition]
  | succ n ih =>
    intro t h
    have h0 : cond t = false := by simpa using h 0 (Nat.succ_pos n)
    have hrec : pollCondition cond n (t + 1) = (false, t + 1 + n) := by
      refine ih (t + 1) (fun u hu => ?_)
      have := h (u + 1) (by omega)
      have harg : t + (u + 1) = t + 1 + u := by omega
      rwa [harg] at this
    have harg2 : t + 1 + n = t + (n + 1) := by omega
    simp [pollCondition, h0, hrec, harg2]

/-- The poll succeeds exactly when the condition becomes true at some tick
within the budget. -/
theorem pollCondition_pos_iff (cond : Nat → Bool) :
    ∀ timeout t, (pollCondition cond timeout t).1 = true ↔
      ∃ k, k < timeout ∧ cond (t + k) = true := by
  intro timeout
  induction timeout with
  | zero =>
    intro t
    simp [pollCondition]
  | succ n ih =>
    intro t
    by_cases hc : cond t = true
    · simp only [pollCondition, hc, if_true]
      constructor
      · intro _
        exact ⟨0, Nat.succ_pos n, by simpa using hc⟩
      · intro _
        trivial
    · have hc' : cond t = false := by simpa using hc
      simp only [pollCondition, hc', Bool.false_eq_true, if_false]
      rw [ih (t + 1)]
      constructor
      · rintro ⟨k, hk, hck⟩
        refine ⟨k + 1, by omega, ?_⟩
        have harg : t + (k + 1) = t + 1 + k := by omega
        rwa [harg]
      · rintro ⟨k, hk, hck⟩
        cases k with
        | zero => simp at hck; exact absurd hck hc
        | succ m =>
          refine ⟨m, by omega, ?_⟩
          have harg : t + 1 + m = t + (m + 1) := by omega
          rwa [harg]

/-- Polling never resolves before its start tick. -/
theorem pollCondition_resolve_ge (cond : Nat → Bool) :
    ∀ timeout t, t ≤ (pollCondition cond timeout t).2 := by
  intro timeout
  induction timeout with
  | zero => intro t; simp [pollCondition]
  | succ n ih =>
    intro t
    by_cases hc : cond t = true
    · simp [pollCondition, hc]
    · have hc' : cond t = false := by simpa using hc
      simp only [pollCondition, hc', Bool.false_eq_true, if_false]
      exact le_trans (Nat.le_succ t) (ih (t + 1))

/-- A condition that already holds at the first poll resolves immediately,
at the starting tick. -/
theorem pollCondition_immediate (cond : Nat → Bool) (timeout t : Nat)
    (h1 : 0 < timeout) (h2 : cond t = true) :
    pollCondition cond timeout t = (true, t) := by
  cases timeout with
  | zero => exact absurd h1 (by omega)
  | succ n => simp [pollCondition, h2]

/-- The poll budget is a single allowance: the number of polls performed
never exceeds the timeout (there are no retries). -/
theorem pollsUsed_le_budget (cond : Nat → Bool) :
    ∀ timeout t, pollsUsed cond timeout t ≤ timeout := by
  intro timeout
  induction timeout with
  | zero => intro t; simp [pollsUsed]
  | succ n ih =>
    intro t
    by_cases hc : cond t = true
    · simp [pollsUsed, hc]
    · have hc' : cond t = false := by simpa using hc
      simp only [pollsUsed, hc', Bool.false_eq_true, if_false]
      have := ih (t + 1)
      omega

/-- A condition that already holds at the first poll is polled exactly once. -/
theorem pollsUsed_immediate (cond : Nat → Bool) (timeout t : Nat)
    (h1 : 0 < timeout) (h2 : cond t = true) :
    pollsUsed cond timeout t = 1 := by
  cases timeout with
  | zero => exact absurd h1 (by omega)
  | succ n => simp [pollsUsed, h2]

/-!  Lemmas about the scenario runner  -/

/-- Unfolding equation of `runStep`. -/
theorem runStep_eq (st : ScriptState) (s : Step) :
    runStep st s =
      { time := (pollCondition s.condition s.timeout (st.time + s.actionTicks)).2,
        log := st.log ++
          [((pollCondition s.condition s.timeout (st.time + s.actionTicks)).2,
            stepLogLine s
              (pollCondition s.condition s.timeout (st.time + s.actionTicks)).1)] } :=
  rfl

/-- A step never moves time backwards: its poll resolves at or after the
tick at which the step began. -/
theorem runStep_time_ge (st : ScriptState) (s : Step) :
    st.time ≤ (runStep st s).time :=
  le_trans (Nat.le_add_right st.time s.actionTicks)
    (pollCondition_resolve_ge s.condition s.timeout (st.time + s.actionTicks))

/-- Running a concatenation of step lists runs the first list to completion
and only then the second. -/
theorem runScript_append (st : ScriptState) (pre post : List Step) :
    runScript st (pre ++ post) = runScript (runScript st pre) post :=
  List.foldl_append runStep st pre post

/-- Every log entry present after a script ran was either already there or
was emitted at a tick no earlier than the starting time: log lines of later
steps cannot appear before the state in which they start. -/
theorem runScript_log_time (steps : List Step) :
    ∀ st e, e ∈ (runScript st steps).log → e ∈ st.log ∨ st.time ≤ e.1 := by
  induction steps with
  | nil => intro st e he; exact Or.inl he
  | cons s rest ih =>
    intro st e he
    have he2 : e ∈ (runScript (runStep st s) rest).log := he
    rcases ih (runStep st s) e he2 with h | h
    · rw [runStep_eq] at h
      rcases List.mem_append.mp h with h2 | h2
      · exact Or.inl h2
      · right
        have h3 : e =
            ((pollCondition s.condition s.timeout (st.time + s.actionTicks)).2,
             stepLogLine s
               (pollCondition s.condition s.timeout (st.time + s.actionTicks)).1) := by
          simpa using h2
        rw [h3]
        exact le_trans (Nat.le_add_right st.time s.actionTicks)
          (pollCondition_resolve_ge s.condition s.timeout (st.time + s.actionTicks))
    · exact Or.inr (le_trans (runStep_time_ge st s) h)

/-!  Lemmas about trace observations  -/

/-- `shotsOf` distributes over concatenation. -/
theorem shotsOf_append (l1 l2 : List Ev) :
    shotsOf (l1 ++ l2) = shotsOf l1 ++ shotsOf l2 := by
  induction l1 with
  | nil => rfl
  | cons e rest ih => cases e <;> simp [shotsOf, ih]

/-- `countFile` distributes over concatenation. -/
theorem countFile_append (f : String) (l1 l2 : List Ev) :
    countFile f (l1 ++ l2) = countFile f l1 + countFile f l2 := by
  induction l1 with
  | nil => simp [countFile]
  | cons e rest ih => cases e <;> simp [countFile, ih, Nat.add_assoc]

/-- Log lines contribute no screenshots. -/
theorem shotsOf_map_logLine (l : List String) :
    shotsOf (l.map Ev.logLine) = [] := by
  induction l with
  | nil => rfl
  | cons s rest ih => simp [shotsOf, ih]

/-- A conditional failure-log singleton contributes no screenshots. -/
theorem shotsOf_iflog (c : Bool) (s : String) :
    shotsOf (if c then [] else [Ev.logLine s]) = [] := by
  cases c <;> rfl

/-- `actionsOf` distributes over concatenation. -/
theorem actionsOf_append (l1 l2 : List Ev) :
    actionsOf (l1 ++ l2) = actionsOf l1 ++ actionsOf l2 :=
  List.filter_append l1 l2

/-- Log lines are not host actions. -/
theorem actionsOf_map_logLine (l : List String) :
    actionsOf (l.map Ev.logLine) = [] := by
  induction l with
  | nil => rfl
  | cons s rest ih => simp [actionsOf, isAction] at ih ⊢

/-- A conditional failure-log singleton contributes no host actions. -/
theorem actionsOf_iflog (c : Bool) (s : String) :
    actionsOf (if c then [] else [Ev.logLine s]) = [] := by
  cases c <;> rfl

/-- The events of one copy-and-wait block: the optional `makedirs`, then the
copy attempt; log lines and the poll resolution are filtered away. -/
theorem actionsOf_hotBlock (env : HotReloadEnv) (k : Nat) (src : String) (t : Nat) :
    actionsOf (hotBlock env k src t).2.2 =
      (if env.dirExists k then [] else [Ev.hostOp "makedirs"])
        ++ [Ev.copyAttempt src hotReloadDst] := by
  unfold hotBlock copy_file_and_wait_for_on_model_ready copy_file
  cases env.copyRes k <;> cases env.dirExists k <;>
    simp [actionsOf, isAction, List.filter_append]

/-- One copy-and-wait block captures no screenshot. -/
theorem shotsOf_hotBlock (env : HotReloadEnv) (k : Nat) (src : String) (t : Nat) :
    shotsOf (hotBlock env k src t).2.2 = [] := by
  unfold hotBlock copy_file_and_wait_for_on_model_ready copy_file
  cases env.copyRes k <;> cases env.dirExists k <;>
    simp [shotsOf_append, shotsOf, shotsOf_map_logLine]

/-- `shotsOf` on the empty trace. -/
theorem shotsOf_nil : shotsOf [] = [] :=
  rfl

/-- `shotsOf` keeps a leading screenshot. -/
theorem shotsOf_cons_screenshot (f : String) (l : List Ev) :
    shotsOf (Ev.screenshot f :: l) = f :: shotsOf l :=
  rfl

/-- `shotsOf` skips a leading log line. -/
theorem shotsOf_cons_logLine (s : String) (l : List Ev) :
    shotsOf (Ev.logLine s :: l) = shotsOf l :=
  rfl

/-- `shotsOf` skips a leading host call. -/
theorem shotsOf_cons_hostOp (s : String) (l : List Ev) :
    shotsOf (Ev.hostOp s :: l) = shotsOf l :=
  rfl

/-- `shotsOf` skips a leading copy attempt. -/
theorem shotsOf_cons_copyAttempt (src dst : String) (l : List Ev) :
    shotsOf (Ev.copyAttempt src dst :: l) = shotsOf l :=
  rfl

/-- `shotsOf` skips a leading poll resolution. -/
theorem shotsOf_cons_pollResolve (ok : Bool) (l : List Ev) :
    shotsOf (Ev.pollResolve ok :: l) = shotsOf l :=
  rfl

/-- `actionsOf` on the empty trace. -/
theorem actionsOf_nil : actionsOf [] = [] :=
  rfl

/-- `actionsOf` keeps a leading screenshot. -/
theorem actionsOf_cons_screenshot (f : String) (l : List Ev) :
    actionsOf (Ev.screenshot f :: l) = Ev.screenshot f :: actionsOf l :=
  rfl

/-- `actionsOf` keeps a leading host call. -/
theorem actionsOf_cons_hostOp (s : String) (l : List Ev) :
    actionsOf (Ev.hostOp s :: l) = Ev.hostOp s :: actionsOf l :=
  rfl

/-- `actionsOf` keeps a leading copy attempt. -/
theorem actionsOf_cons_copyAttempt (src dst : String) (l : List Ev) :
    actionsOf (Ev.copyAttempt src dst :: l) = Ev.copyAttempt src dst :: actionsOf l :=
  rfl

/-- `actionsOf` drops a leading log line. -/
theorem actionsOf_cons_logLine (s : String) (l : List Ev) :
    actionsOf (Ev.logLine s :: l) = actionsOf l :=
  rfl

/-- `actionsOf` drops a leading poll resolution. -/
theorem actionsOf_cons_pollResolve (ok : Bool) (l : List Ev) :
    actionsOf (Ev.pollResolve ok :: l) = actionsOf l :=
  rfl

/-- Whatever the copy outcomes, notification timing and host maps, the
hot-reload run captures exactly its two named screenshots, in order. -/
theorem shotsOf_modelHotReload (env : HotReloadEnv) (t0 : Nat) :
    shotsOf (modelHotReload_run env t0) =
      ["screenshot_atom_ModelHotReload_VertexColor.ppm",
       "screenshot_atom_ModelHotReload_NoVertexColor.ppm"] := by
  unfold modelHotReload_run
  simp only [shotsOf_append, shotsOf_hotBlock, shotsOf_iflog, shotsOf_map_logLine,
    shotsOf_nil, shotsOf_cons_screenshot, shotsOf_cons_logLine, shotsOf_cons_hostOp,
    shotsOf_cons_copyAttempt, shotsOf_cons_pollResolve, apply_ite shotsOf,
    List.nil_append, List.append_nil, List.singleton_append, List.cons_append,
    List.append_assoc, ite_self]

/-- The host actions of the hot-reload run depend only on the filesystem's
directory state and on the material maps the validations read; copy
failures and poll timeouts alter only log lines and poll resolutions. -/
theorem actionsOf_modelHotReload (env : HotReloadEnv) (t0 : Nat) :
    actionsOf (modelHotReload_run env t0) =
      hotReloadActions env.dirExists env.matMap := by
  unfold modelHotReload_run hotReloadActions
  simp only [actionsOf_append, actionsOf_hotBlock, actionsOf_iflog,
    actionsOf_map_logLine, actionsOf_nil, actionsOf_cons_screenshot,
    actionsOf_cons_hostOp, actionsOf_cons_copyAttempt, actionsOf_cons_logLine,
    actionsOf_cons_pollResolve, apply_ite actionsOf, List.nil_append,
    List.append_nil, List.singleton_append, List.cons_append, List.append_assoc,
    ite_self]

/-!  Lemmas about the harness log checker  -/

/-- If some line of the transcript contains an unexpected substring, the
scan halts at the first such line and reports the failure there: every
earlier line is clean. -/
theorem scanTranscript_spec (unexpected : List String) :
    ∀ transcript : List String,
      (∃ l ∈ transcript, lineHasUnexpected unexpected l = true) →
      ∃ i, ∃ hi : i < transcript.length,
        scanTranscript unexpected transcript =
          CheckOutcome.failedAt i (transcript.get ⟨i, hi⟩) ∧
        lineHasUnexpected unexpected (transcript.get ⟨i, hi⟩) = true ∧
        ∀ j, (hj : j < transcript.length) → j < i →
          lineHasUnexpected unexpected (transcript.get ⟨j, hj⟩) = false := by
  intro transcript
  induction transcript with
  | nil =>
    rintro ⟨l, hl, _⟩
    cases hl
  | cons a rest ih =>
    intro h
    by_cases ha : lineHasUnexpected unexpected a = true
    · refine ⟨0, Nat.succ_pos _, ?_, ha, ?_⟩
      · simp [scanTranscript, ha]
      · intro j hj hji
        omega
    · have ha' : lineHasUnexpected unexpected a = false := by
        simpa using ha
      have hrest : ∃ l ∈ rest, lineHasUnexpected unexpected l = true := by
        obtain ⟨l, hl, hlu⟩ := h
        rcases List.mem_cons.mp hl with rfl | hmem
        · exact absurd hlu ha
        · exact ⟨l, hmem, hlu⟩
      obtain ⟨i, hi, hscan, hhit, hfirst⟩ := ih hrest
      refine ⟨i + 1, Nat.succ_lt_succ hi, ?_, hhit, ?_⟩
      · simp [scanTranscript, ha', hscan]
      · intro j hj hji
        cases j with
        | zero => exact ha'
        | succ m => exact hfirst m (by omega) (by omega)

/-!  Lemmas about entity handle lifetimes  -/

/-- A trace that begins with the creation of handle `h` and ends with its
deletion keeps every use of `h` inside the creation-to-deletion interval. -/
theorem handleScoped_shell (h : Nat) (mid : List Ev) :
    handleScoped (Ev.createEntity h :: mid ++ [Ev.deleteEntity h]) h := by
  intro k hk hu
  have hlen : (Ev.createEntity h :: mid ++ [Ev.deleteEntity h]).length =
      mid.length + 2 := by
    simp
  have hknz : k ≠ 0 := by
    intro h0
    subst h0
    simp [usesEntity] at hu
  constructor
  · refine ⟨0, ?_, ?_, rfl⟩
    · rw [hlen]
      omega
    · omega
  · have hk2 : k < mid.length + 2 := by
      rw [hlen] at hk
      exact hk
    refine ⟨mid.length + 1, ?_, by omega, ?_⟩
    · rw [hlen]
      omega
    · simp [List.get_eq_getElem, List.getElem_cons_succ, List.getElem_concat_length]

/-!  Claims  -/

/-- C1: For every verification step, when the step's polled condition is
not satisfied within its timeout, the step still emits its log line —
reporting the condition's failing truth value, rendered "False" — exactly
once (the log grows by exactly that one entry), and the scenario proceeds
to execute the remaining steps from the resolved state: a timed-out poll
never aborts the scenario. -/
theorem timeout_step_logs_once_and_scenario_continues
    (st : ScriptState) (s : Step) (rest : List Step)
    (h : ∀ u, u < s.timeout → s.condition (st.time + s.actionTicks + u) = false) :
    (runStep st s).log =
      st.log ++ [(st.time + s.actionTicks + s.timeout, stepLogLine s false)] ∧
    stepLogLine s false = s.logTemplate ++ "False" ∧
    runScript st (s :: rest) = runScript (runStep st s) rest := by
  have hp := pollCondition_never s.condition s.timeout (st.time + s.actionTicks) h
  refine ⟨?_, rfl, rfl⟩
  rw [runStep_eq, hp]

/-- Witness for C1: a step with a two-tick timeout whose condition is
identically false still logs its UNDO line once and the scenario continues. -/
theorem timeout_step_logs_once_witness :
    (runStep ⟨0, []⟩
        ⟨0, fun _ => false, 2, "area_light_test: Component removed after UNDO: "⟩).log =
      [] ++ [(0 + 0 + 2,
        stepLogLine
          ⟨0, fun _ => false, 2, "area_light_test: Component removed after UNDO: "⟩
          false)] ∧
    stepLogLine
        ⟨0, fun _ => false, 2, "area_light_test: Component removed after UNDO: "⟩
        false =
      "area_light_test: Component removed after UNDO: " ++ "False" ∧
    runScript ⟨0, []⟩
        [⟨0, fun _ => false, 2, "area_light_test: Component removed after UNDO: "⟩] =
      runScript
        (runStep ⟨0, []⟩
          ⟨0, fun _ => false, 2, "area_light_test: Component removed after UNDO: "⟩)
        [] :=
  timeout_step_logs_once_and_scenario_continues ⟨0, []⟩
    ⟨0, fun _ => false, 2, "area_light_test: Component removed after UNDO: "⟩ []
    (fun _ _ => rfl)

/-- C2: For every log transcript, if some line contains one of the
configured unexpected substrings ("Assert" or
"Traceback (most recent call last):"), the harness-side checker invoked
with halt_on_unexpected=True halts at the first such line and reports the
test failed there; every earlier line is clean. -/
theorem harness_halts_at_first_unexpected (transcript : List String)
    (h : ∃ l ∈ transcript, lineHasUnexpected unexpected_lines l = true) :
    ∃ i, ∃ hi : i < transcript.length,
      scanTranscript unexpected_lines transcript =
        CheckOutcome.failedAt i (transcript.get ⟨i, hi⟩) ∧
      lineHasUnexpected unexpected_lines (transcript.get ⟨i, hi⟩) = true ∧
      ∀ j, (hj : j < transcript.length) → j < i →
        lineHasUnexpected unexpected_lines (transcript.get ⟨j, hj⟩) = false :=
  scanTranscript_spec unexpected_lines transcript h

/-- Witness for C2: the checker halts and fails on the seed transcript
whose second line contains the Traceback literal. -/
theorem harness_halts_witness :
    (∃ l ∈ seedTranscript, lineHasUnexpected unexpected_lines l = true) ∧
    (∃ i, ∃ hi : i < seedTranscript.length,
      scanTranscript unexpected_lines seedTranscript =
        CheckOutcome.failedAt i (seedTranscript.get ⟨i, hi⟩) ∧
      lineHasUnexpected unexpected_lines (seedTranscript.get ⟨i, hi⟩) = true ∧
      ∀ j, (hj : j < seedTranscript.length) → j < i →
        lineHasUnexpected unexpected_lines (seedTranscript.get ⟨j, hj⟩) = false) :=
  ⟨by decide, harness_halts_at_first_unexpected seedTranscript (by decide)⟩

/-- C3 counterexample: an error value returned by one operation of this
repository is consumed by another operation's own control flow.
`copy_file`'s False return (a caught `shutil.copyfile` exception) is
branched on by `copy_file_and_wait_for_on_model_ready` (line 56 of
ModelHotReloading_test_case.py): with everything else identical, a failed
copy yields a different result, resolution tick and event list than a
successful one (the model-ready wait is skipped entirely), so error
propagation is not solely via log-string side effects. -/
theorem error_return_consumed_counterexample :
    copy_file_and_wait_for_on_model_ready ⟨false⟩
        "Objects/ModelHotReload/vertexcolor.fbx" true
        (Except.error "No such file or directory") (fun _ => true) 0 ≠
      copy_file_and_wait_for_on_model_ready ⟨false⟩
        "Objects/ModelHotReload/vertexcolor.fbx" true
        (Except.ok ()) (fun _ => true) 0 := by
  decide

/-- C3 amended: every error condition of the hot-reload scenario (condition
timeout, missing asset surfacing as a failed copy, copy failure) surfaces
externally only as log lines; the host action sequence — directory
creation, copy attempts, screenshots, editor close — is unchanged by copy
outcomes and notification timing, although the Boolean failure returns of
`copy_file` and `copy_file_and_wait_for_on_model_ready` are consumed
internally to skip the dependent wait and to select failure log lines. -/
theorem errors_surface_only_in_logs (env1 env2 : HotReloadEnv) (t0 t1 : Nat)
    (hmat : env1.matMap = env2.matMap) (hdir : env1.dirExists = env2.dirExists) :
    actionsOf (modelHotReload_run env1 t0) =
      actionsOf (modelHotReload_run env2 t1) := by
  rw [actionsOf_modelHotReload, actionsOf_modelHotReload, hmat, hdir]

/-- Witness for C3 (amended): the oracle whose copies all raise and the
oracle whose copies all succeed produce identical host action sequences. -/
theorem errors_surface_only_in_logs_witness :
    actionsOf (modelHotReload_run hotEnvCopyFails 0) =
      actionsOf (modelHotReload_run hotEnvCopyOk 7) :=
  errors_surface_only_in_logs hotEnvCopyFails hotEnvCopyOk 0 7 rfl rfl

/-- C4: every invocation of a screenshot-capture step with a given name
produces exactly one named artifact `<screenshot_name>.ppm`, regardless of
whether the surrounding game-mode or model-ready conditions succeeded or
timed out; in particular the hot-reload run captures each of its two named
screenshots exactly once under every oracle. -/
theorem screenshot_step_single_artifact :
    (∀ screenshot_name : String, ∀ w : Nat → Bool,
      shotsOf (take_screenshot_game_mode screenshot_name w) =
        [screenshot_name ++ ".ppm"]) ∧
    (∀ screenshot_name : String, ∀ w : Nat → Bool,
      countFile (screenshot_name ++ ".ppm")
        (take_screenshot_game_mode screenshot_name w) = 1) ∧
    (∀ env t0, shotsOf (modelHotReload_run env t0) =
      ["screenshot_atom_ModelHotReload_VertexColor.ppm",
       "screenshot_atom_ModelHotReload_NoVertexColor.ppm"]) ∧
    (∀ env t0,
      (shotsOf (modelHotReload_run env t0)).count
        "screenshot_atom_ModelHotReload_VertexColor.ppm" = 1 ∧
      (shotsOf (modelHotReload_run env t0)).count
        "screenshot_atom_ModelHotReload_NoVertexColor.ppm" = 1) := by
  refine ⟨fun n w => rfl, fun n w => ?_, fun env t0 => shotsOf_modelHotReload env t0,
    fun env t0 => ?_⟩
  · simp [take_screenshot_game_mode, countFile]
  · rw [shotsOf_modelHotReload]
    constructor <;> decide

/-- C5: steps execute in their declared order: a scenario suffix runs from
exactly the state in which the prefix finished, a step's final time is its
poll's resolution tick, and no log entry of the remaining script carries a
tick earlier than the state it starts from — so a later step never begins
before every earlier step's poll resolved.  In particular
`AllComponentsIndepthTests.run()` is the area-light test, then the
spot-light test, then the grid test, then the completion line, in that
order. -/
theorem steps_execute_in_declared_order :
    (∀ st pre post, runScript st (pre ++ post) = runScript (runScript st pre) post) ∧
    (∀ st s, (runStep st s).time =
      (pollCondition s.condition s.timeout (st.time + s.actionTicks)).2) ∧
    (∀ steps st e, e ∈ (runScript st steps).log → e ∈ st.log ∨ st.time ≤ e.1) ∧
    (∀ hidA hidS hidL qa wa qs ws wg sa ss,
      allComponentsIndepth_run hidA hidS hidL qa wa qs ws wg sa ss =
        [Ev.hostOp "init_idle", Ev.hostOp "create_basic_atom_level",
         Ev.hostOp "level_load_save", Ev.hostOp "initial_viewport_setup"]
        ++ area_light_component_test hidA qa wa sa
        ++ spot_light_component_test hidS qs ws ss
        ++ grid_component_test hidL wg
        ++ [Ev.logLine "Component tests completed"]) :=
  ⟨fun st pre post => runScript_append st pre post,
   fun _ _ => rfl,
   fun steps st e he => runScript_log_time steps st e he,
   fun _ _ _ _ _ _ _ _ _ _ => rfl⟩

/-- C6: failing-input evaluation.  With a host assignment map containing
only the default assignment (which exists for every model) and a non-empty
expected dictionary, `validate_material_slot_labels` prints the first
diagnostic line and then raises NameError (modelled as `none`) while
formatting the second — the loop variables `assignmentId`/`slotLabel` were
never bound — instead of returning False after logging as the claim (and
the code's evident intent) states. -/
theorem validate_raises_on_vacuous_map :
    validate_material_slot_labels [⟨0, true, "default"⟩] [(0, ["a"])] =
      (none,
       ["There was an expected material slot/lod combination that was not found"]) :=
  rfl

/-- C7: `copy_file_and_wait_for_on_model_ready` first resets the
`isModelReady` flag, so its behaviour is independent of the helper's prior
flag and a model-ready notification of a previous invocation never
satisfies a later one; it returns True exactly when the copy succeeded and
this invocation's OnModelReady notification arrives within the 20-tick poll
budget; and when `copy_file` returns False it returns False at the starting
tick with no poll at all. -/
theorem copy_wait_scoped_to_invocation (helper helper' : ModelReloadHelper)
    (src : String) (d : Bool) (cr : Except String Unit)
    (readyAt : Nat → Bool) (t : Nat) :
    copy_file_and_wait_for_on_model_ready helper src d cr readyAt t =
      copy_file_and_wait_for_on_model_ready helper' src d cr readyAt t ∧
    ((copy_file_and_wait_for_on_model_ready helper src d cr readyAt t).1 = true ↔
      (copy_file src hotReloadDst d cr).1 = true ∧
      ∃ k, k < 20 ∧ readyAt (t + k) = true) ∧
    ((copy_file src hotReloadDst d cr).1 = false →
      copy_file_and_wait_for_on_model_ready helper src d cr readyAt t =
        (false, t,
         (copy_file src hotReloadDst d cr).2.2 ++
           (copy_file src hotReloadDst d cr).2.1.map Ev.logLine)) := by
  refine ⟨rfl, ?_, ?_⟩
  · unfold copy_file_and_wait_for_on_model_ready
    cases cr with
    | ok u =>
      simp only [copy_file, if_true]
      rw [pollCondition_pos_iff]
      simp
    | error e =>
      simp [copy_file]
  · intro hf
    cases cr with
    | ok u => simp [copy_file] at hf
    | error e => rfl

/-- C8: `copy_file` returns True when the underlying `shutil.copyfile`
succeeds, and when the copy raises any exception it returns False after
logging an "ERROR: ..." line; the exception is swallowed (the function
totalizes to a Boolean) rather than propagated to the caller. -/
theorem copy_file_catches_exception (srcPath dstPath : String) (d : Bool) :
    ((copy_file srcPath dstPath d (Except.ok ())).1 = true ∧
     (copy_file srcPath dstPath d (Except.ok ())).2.1 = []) ∧
    ∀ e, (copy_file srcPath dstPath d (Except.error e)).1 = false ∧
      (copy_file srcPath dstPath d (Except.error e)).2.1 = ["ERROR: " ++ e] :=
  ⟨⟨rfl, rfl⟩, fun _ => ⟨rfl, rfl⟩⟩

/-- C9: each check is a single poll-with-timeout: a condition already
satisfied at the first poll resolves immediately at the starting tick after
exactly one poll, the number of polls never exceeds the single timeout
budget (no retries), and `verify_enter_exit_game_mode` — two checks —
resolves exactly two polls. -/
theorem single_poll_no_spurious_delay (cond : Nat → Bool) (timeout t : Nat)
    (entity_name : String) (q w : Nat → Bool)
    (h1 : 0 < timeout) (h2 : cond t = true) :
    pollCondition cond timeout t = (true, t) ∧
    pollsUsed cond timeout t = 1 ∧
    (∀ c n u, pollsUsed c n u ≤ n) ∧
    countPolls (verify_enter_exit_game_mode entity_name q w) = 2 :=
  ⟨pollCondition_immediate cond timeout t h1 h2,
   pollsUsed_immediate cond timeout t h1 h2,
   fun c n u => pollsUsed_le_budget c n u,
   rfl⟩

/-- Witness for C9: an immediately-true condition with a one-tick budget
resolves at tick 0 with one poll. -/
theorem single_poll_witness :
    pollCondition (fun _ => true) 1 0 = (true, 0) ∧
    pollsUsed (fun _ => true) 1 0 = 1 ∧
    (∀ c n u, pollsUsed c n u ≤ n) ∧
    countPolls (verify_enter_exit_game_mode "area_light"
      (fun _ => true) (fun _ => true)) = 2 :=
  single_poll_no_spurious_delay (fun _ => true) 1 0 "area_light"
    (fun _ => true) (fun _ => true) (by decide) rfl

/-- C10: the area-light scenario uses its entity handle only inside the
handle's creation-to-deletion interval (the trace begins with the creating
call and ends with the deleting call), and `verify_deletion_undo_redo`
never passes the handle to the host again after its deletion call — the
post-deletion checks go through the entity's name. -/
theorem entity_handle_used_within_lifetime (hid : Nat) (q w : Nat → Bool)
    (s : Nat → String) (entity_name : String) :
    handleScoped (area_light_component_test hid q w s) hid ∧
    noUseAfterDelete (verify_deletion_undo_redo entity_name hid q w) hid := by
  constructor
  · obtain ⟨mid, hmid⟩ :
        ∃ mid, area_light_component_test hid q w s =
          Ev.createEntity hid :: mid ++ [Ev.deleteEntity hid] :=
      ⟨[Ev.entityOp ("add_component " ++ "Light") hid,
        Ev.entityOp "has_components" hid,
        Ev.logLine ("area_light" ++ "_test: Component added to the entity: " ++ boolText (q 0)),
        Ev.hostOp "undo",
        Ev.pollResolve (w 0),
        Ev.entityOp "has_components" hid,
        Ev.logLine ("area_light" ++ "_test: Component removed after UNDO: " ++ boolText (q 1)),
        Ev.hostOp "redo",
        Ev.pollResolve (w 1),
        Ev.entityOp "has_components" hid,
        Ev.logLine ("area_light" ++ "_test: Component added after REDO: " ++ boolText (q 2))]
        ++ [Ev.entityOp "attach_component Light" hid,
            Ev.componentOp "SetComponentProperty Light type"]
        ++ verify_enter_exit_game_mode "area_light" (fun i => q (3 + i)) (fun i => w (2 + i))
        ++ verify_required_component_property_value "area_light" (s 0) (s 1)
        ++ [Ev.componentOp "get_set_test Color"]
        ++ take_screenshot_game_mode "AreaLight_1" (fun i => w (4 + i))
        ++ [Ev.componentOp "get_set_test Attenuation Radius Mode",
            Ev.componentOp "get_set_test Intensity"]
        ++ take_screenshot_game_mode "AreaLight_2" (fun i => w (6 + i))
        ++ [Ev.componentOp "get_set_test Intensity"]
        ++ take_screenshot_game_mode "AreaLight_3" (fun i => w (8 + i))
        ++ [Ev.componentOp "SetComponentProperty Light type"]
        ++ verify_required_component_property_value "area_light" (s 2) (s 3)
        ++ [Ev.entityOp "SetLocalRotation" hid]
        ++ take_screenshot_game_mode "AreaLight_4" (fun i => w (10 + i))
        ++ [Ev.componentOp "SetComponentProperty Light type"]
        ++ verify_required_component_property_value "area_light" (s 4) (s 5)
        ++ take_screenshot_game_mode "AreaLight_5" (fun i => w (12 + i)), rfl⟩
    rw [hmid]
    exact handleScoped_shell hid mid
  · intro i j hi hj hdel hij
    have hj13 : j < 13 := by
      simpa [verify_deletion_undo_redo] using hj
    have hj1 : 1 ≤ j := by omega
    interval_cases j <;> rfl
